import Mathlib

/-!
Shallow embedding of the order-lifecycle and payment-reconciliation core of
the pizzaBackend repository.

Source files embedded here:
  * `src/models/Order.js` (order schema and its pre-save hook),
  * `src/controllers/orderController.js` (`placeOrder`, `cancelMyOrder`,
    `updateOrderStatus`),
  * `src/unnamed/part_007` = `controllers/transactionController.js`
    (`processOrderPayment`, `updateOrderPayment`),
  * `src/unnamed/part_002` = `models/Transaction.js` (transaction schema).

Modelling conventions: money values are rationals (JS numbers; all source
computations used here are sums, products and a round-to-2-decimals, which
are exact on the inputs considered); wall-clock instants are naturals
(milliseconds); Mongo object ids are naturals; the document store is passed
explicitly (an `Option Order` for a lookup result, and a `Sys` record
holding the order document together with the transaction ledger).
-/

namespace PizzaBackend

/-- JS numeric fallback `x || d`: an absent value or a zero value falls back
to the default, any other number is kept (0 and undefined are falsy). -/
def jsOr (x : Option Rat) (d : Rat) : Rat :=
  match x with
  | none => d
  | some v => if v = 0 then d else v

/-- JS string fallback `x || d`: absent or empty string falls back. -/
def jsOrS (x : Option String) (d : String) : String :=
  match x with
  | none => d
  | some s => if s = "" then d else s

/-- JS truthiness test `!x` on an optional number: true when the value is
absent or zero. -/
def jsFalsy (x : Option Rat) : Bool :=
  match x with
  | none => true
  | some v => v = 0

/-- Actor roles that reach the order endpoints (`req.user.role`). The code
treats every role other than customer and delivery as the unrestricted
admin branch. -/
inductive Role
  | admin
  | delivery
  | customer
deriving DecidableEq, Repr

/-- Order status enum of the order schema: Pending, Preparing,
Out for delivery, Delivered, Cancelled (exact strings via `toText`). -/
inductive OrderStatus
  | Pending
  | Preparing
  | OutForDelivery
  | Delivered
  | Cancelled
deriving DecidableEq, Repr

/-- Payment status enum: Pending, Completed, Failed, Refunded. -/
inductive PaymentStatus
  | Pending
  | Completed
  | Failed
  | Refunded
deriving DecidableEq, Repr

/-- Payment methods appearing in the order schema (`Online`,
`Cash on Delivery`) and the transaction schema (additionally `UPI`,
`Card`). -/
inductive PaymentMethod
  | Online
  | CashOnDelivery
  | UPI
  | Card
deriving DecidableEq, Repr

/-- Exact string of an order status as used in notes and comparisons. -/
def OrderStatus.toText : OrderStatus → String
  | .Pending => "Pending"
  | .Preparing => "Preparing"
  | .OutForDelivery => "Out for delivery"
  | .Delivered => "Delivered"
  | .Cancelled => "Cancelled"

/-- Exact string of a payment status. -/
def PaymentStatus.toText : PaymentStatus → String
  | .Pending => "Pending"
  | .Completed => "Completed"
  | .Failed => "Failed"
  | .Refunded => "Refunded"

/-- Exact string of a role (`req.user.role`). -/
def Role.toText : Role → String
  | .admin => "admin"
  | .delivery => "delivery"
  | .customer => "customer"

/-- Authenticated user making a request. -/
structure User where
  id : Nat
  role : Role
  name : String := ""
deriving DecidableEq, Repr

/-- Entry of the `statusUpdates` array:
`{ status: String, time: Date, note: String }`. -/
structure StatusUpdate where
  status : OrderStatus
  time : Nat
  note : String
deriving DecidableEq, Repr

/-- Stored customization / add-on / topping of an order item
(`customizationSchema`): `{ name, option, price (default 0) }`. -/
structure Customization where
  name : String
  option : String
  price : Rat
deriving DecidableEq, Repr

/-- Order item as stored in the order document. `basePrice` and
`totalItemPrice` are optional schema fields. -/
structure OrderItem where
  name : String
  quantity : Rat
  price : Rat
  basePrice : Option Rat := none
  totalItemPrice : Option Rat := none
  customizations : List Customization := []
  addOns : List Customization := []
  toppings : List Customization := []
deriving DecidableEq, Repr

/-- Discounts subdocument: `{ code, amount (default 0), percentage }`. -/
structure Discounts where
  code : Option String := none
  amount : Rat := 0
  percentage : Option Rat := none
deriving DecidableEq, Repr

/-- Gateway-specific `paymentDetails` subdocument, modelled as a keyed record
of string fields so that the JS object-spread merge
`{...order.paymentDetails, ...paymentDetails, updatedAt: new Date()}` can be
expressed, plus the `updatedAt` stamp the merge writes. -/
structure PaymentDetails where
  fields : List (String × String) := []
  updatedAt : Option Nat := none
deriving DecidableEq, Repr

/-- Object-spread merge of the keyed fields: every key of `b` overrides the
same key of `a`, keys only in `a` survive. -/
def spreadMerge (a b : List (String × String)) : List (String × String) :=
  a.filter (fun kv => (b.find? (fun kv2 => kv2.1 = kv.1)).isNone) ++ b

/-- Lookup of a key in the keyed payment details. -/
def detailsGet (d : List (String × String)) (k : String) : Option String :=
  (d.find? (fun kv => kv.1 = k)).map (fun kv => kv.2)

/-- Order document (the fields the embedded operations read or write). -/
structure Order where
  id : Nat
  customer : Nat
  orderNumber : Option String := none
  customerName : String := ""
  items : List OrderItem := []
  status : OrderStatus := .Pending
  statusUpdates : List StatusUpdate := []
  deliveryAgent : Option Nat := none
  deliveryAgentName : String := "Unassigned"
  amount : Option Rat := none
  paymentMethod : PaymentMethod := .CashOnDelivery
  paymentStatus : PaymentStatus := .Pending
  paymentDetails : PaymentDetails := {}
  estimatedDeliveryTime : Option Nat := none
  subTotal : Option Rat := none
  tax : Option Rat := none
  deliveryFee : Option Rat := none
  discounts : Option Discounts := none
  totalItemsCount : Option Rat := none
deriving DecidableEq, Repr

/-- Discount amount read as `(this.discounts && this.discounts.amount) || 0`. -/
def discAmount (d : Option Discounts) : Rat :=
  match d with
  | none => 0
  | some dd => dd.amount

/-- Millisecond count of the 30 minutes added to the clock when an order
goes out for delivery. -/
def thirtyMinutesMs : Nat := 30 * 60000

/-! ## `updateOrderStatus` (orderController.js, lines 729-851) -/

/-- Error taxonomy kinds of the spec (section 7). -/
inductive ErrorKind
  | validation
  | notFound
  | authorization
  | state
deriving DecidableEq, Repr

/-- Failures of `updateOrderStatus`, one constructor per `throw new Error`
site of the function body. -/
inductive StatusErr
  | orderNotFound
  | customersOnlyCancel
  | notOrderOwner
  | notCancellable
  | notAssignedAgent
  | deliveryTargetNotAllowed
  | codPaymentIncomplete
deriving DecidableEq, Repr

/-- HTTP code the catch block of `updateOrderStatus` finally responds with:
messages containing "Not authorized" or "can only" get 403, "Order not
found" gets 404, "cannot be cancelled" or "must be completed" get 400. -/
def StatusErr.http : StatusErr → Nat
  | .orderNotFound => 404
  | .customersOnlyCancel => 403
  | .notOrderOwner => 403
  | .notCancellable => 400
  | .notAssignedAgent => 403
  | .deliveryTargetNotAllowed => 403
  | .codPaymentIncomplete => 400

/-- Spec error kind of a response code on this endpoint: 401/403 are
authorization failures, 400 is an illegal-transition state failure, 404 is
not-found. -/
def StatusErr.kind (e : StatusErr) : ErrorKind :=
  if e.http = 404 then .notFound
  else if e.http = 400 then .state
  else .authorization

/-- Default history note of a status change:
`Status updated to <status> by <role>`. -/
def defaultStatusNote (status : OrderStatus) (role : Role) : String :=
  "Status updated to " ++ status.toText ++ " by " ++ role.toText

/-- Mutation applied once the role checks of `updateOrderStatus` pass: set
the status, push a history entry, and seed the estimated delivery time
(now + 30 minutes) when going out for delivery without one. -/
def applyStatusChange (o : Order) (u : User) (status : OrderStatus)
    (note : Option String) (now : Nat) : Order :=
  let o1 := { o with
    status := status,
    statusUpdates := o.statusUpdates ++
      [⟨status, now, jsOrS note (defaultStatusNote status u.role)⟩] }
  if status = .OutForDelivery ∧ o.estimatedDeliveryTime = none then
    { o1 with estimatedDeliveryTime := some (now + thirtyMinutesMs) }
  else o1

/-- Unified status-transition endpoint `updateOrderStatus`: customers may
only cancel their own Pending/Preparing orders, delivery agents may move
their assigned orders to out-for-delivery or delivered (COD orders only
after payment completion), any other role is unrestricted. -/
def updateOrderStatus (u : User) (status : OrderStatus) (note : Option String)
    (now : Nat) (lookup : Option Order) : Except StatusErr Order :=
  match lookup with
  | none => .error .orderNotFound
  | some o =>
    match u.role with
    | .customer =>
      if status ≠ .Cancelled then .error .customersOnlyCancel
      else if o.customer ≠ u.id then .error .notOrderOwner
      else if o.status ≠ .Pending ∧ o.status ≠ .Preparing then
        .error .notCancellable
      else .ok (applyStatusChange o u status note now)
    | .delivery =>
      if o.deliveryAgent ≠ some u.id then .error .notAssignedAgent
      else if status ≠ .OutForDelivery ∧ status ≠ .Delivered then
        .error .deliveryTargetNotAllowed
      else if status = .Delivered ∧ o.paymentMethod = .CashOnDelivery ∧
          o.paymentStatus ≠ .Completed then
        .error .codPaymentIncomplete
      else .ok (applyStatusChange o u status note now)
    | .admin => .ok (applyStatusChange o u status note now)

/-! ## `cancelMyOrder` (orderController.js, lines 567-611) -/

/-- Failures of `cancelMyOrder`. -/
inductive CancelErr
  | orderNotFound
  | notAuthorized
  | cannotCancel
deriving DecidableEq, Repr

/-- HTTP code `cancelMyOrder` responds with for each failure. -/
def CancelErr.http : CancelErr → Nat
  | .orderNotFound => 404
  | .notAuthorized => 401
  | .cannotCancel => 400

/-- Spec error kind of a `cancelMyOrder` failure. -/
def CancelErr.kind (e : CancelErr) : ErrorKind :=
  if e.http = 404 then .notFound
  else if e.http = 400 then .state
  else .authorization

/-- Customer self-service cancellation endpoint: requires ownership and a
Pending or Preparing status, then sets Cancelled and appends a history
entry. -/
def cancelMyOrder (userId : Nat) (now : Nat) (lookup : Option Order) :
    Except CancelErr Order :=
  match lookup with
  | none => .error .orderNotFound
  | some o =>
    if o.customer ≠ userId then .error .notAuthorized
    else if o.status ≠ .Pending ∧ o.status ≠ .Preparing then
      .error .cannotCancel
    else .ok { o with
      status := .Cancelled,
      statusUpdates := o.statusUpdates ++
        [⟨.Cancelled, now, "Cancelled by customer"⟩] }

/-! ## `processOrderPayment` (transactionController.js, part_007 lines 14-160) -/

/-- Transaction ledger entry (`models/Transaction.js`, part_002). The schema
carries no uniqueness constraint linking a transaction to its order beyond a
plain (non-unique) index. -/
structure Transaction where
  order : Nat
  orderNumber : Option String
  amount : Option Rat
  paymentMethod : PaymentMethod
  confirmedBy : Nat
  customer : Nat
  notes : String
  razorpayFields : Option (List (String × Option String)) := none
  upiFields : Option (List (String × Option String)) := none
deriving DecidableEq, Repr

/-- Payload accepted by the payment endpoints (`paymentData` plus the extra
UPI fields `updateOrderPayment` copies out of the request body). -/
structure PaymentData where
  paymentStatus : Option PaymentStatus := none
  paymentMethod : Option PaymentMethod := none
  paymentDetails : Option (List (String × String)) := none
  status : Option OrderStatus := none
  note : Option String := none
  upiId : Option String := none
  merchantName : Option String := none
  merchantCode : Option String := none
  upiReference : Option String := none
deriving DecidableEq, Repr

/-- Failures of `processOrderPayment`. -/
inductive PayErr
  | orderNotFound
  | notAuthorized
deriving DecidableEq, Repr

/-- HTTP status code attached to a `processOrderPayment` failure. -/
def PayErr.http : PayErr → Nat
  | .orderNotFound => 404
  | .notAuthorized => 403

/-- Spec error kind of a `processOrderPayment` failure. -/
def PayErr.kind : PayErr → ErrorKind
  | .orderNotFound => .notFound
  | .notAuthorized => .authorization

/-- Role-based authorization of `processOrderPayment`: admins always,
delivery agents only on orders assigned to them, customers only on their
own orders. -/
def payAuthorized (o : Order) (u : User) : Bool :=
  match u.role with
  | .admin => true
  | .delivery => o.deliveryAgent = some u.id
  | .customer => o.customer = u.id

/-- Display name `updatedBy` recorded in the default notes. -/
def updatedByText : Role → String
  | .admin => "admin"
  | .delivery => "delivery agent"
  | .customer => "customer"

/-- Field-level payment updates of `processOrderPayment`: overwrite
`paymentStatus` and `paymentMethod` when supplied, and spread-merge the
supplied `paymentDetails` over the stored ones with a fresh `updatedAt`. -/
def applyPaymentFields (o : Order) (p : PaymentData) (now : Nat) : Order :=
  let o1 := match p.paymentStatus with
    | some ps => { o with paymentStatus := ps }
    | none => o
  let o2 := match p.paymentMethod with
    | some pm => { o1 with paymentMethod := pm }
    | none => o1
  match p.paymentDetails with
  | some d => { o2 with paymentDetails :=
      { fields := spreadMerge o2.paymentDetails.fields d,
        updatedAt := some now } }
  | none => o2

/-- Conditional status write of `processOrderPayment`: the status moves only
when one was supplied, it is Preparing / Out for delivery / Delivered, and
the caller is a delivery agent or an admin. -/
def applyPaymentStatus (o : Order) (p : PaymentData) (u : User) : Order :=
  match p.status with
  | some s =>
    if (s = .Preparing ∨ s = .OutForDelivery ∨ s = .Delivered) ∧
        (u.role = .delivery ∨ u.role = .admin) then
      { o with status := s }
    else o
  | none => o

/-- Default note pushed by `processOrderPayment`; an absent `paymentStatus`
prints as the string "undefined" exactly as the JS template literal does. -/
def paymentNote (p : PaymentData) (u : User) : String :=
  jsOrS p.note
    ("Payment status updated to "
      ++ (match p.paymentStatus with
          | some ps => ps.toText
          | none => "undefined")
      ++ " by " ++ updatedByText u.role
      ++ (match p.status with
          | some s => " and status updated to " ++ s.toText
          | none => ""))

/-- Transaction record built when `createTransactionRecord` is set, reading
the mutated order document (razorpay identifiers for online payments, UPI
merchant fields with hard-coded defaults for UPI / cash on delivery). -/
def buildTransaction (o : Order) (p : PaymentData) (u : User) : Transaction :=
  { order := o.id,
    orderNumber := o.orderNumber,
    amount := o.amount,
    paymentMethod := o.paymentMethod,
    confirmedBy := u.id,
    customer := o.customer,
    notes := jsOrS p.note ("Payment confirmed by " ++ updatedByText u.role),
    razorpayFields :=
      match p.paymentDetails with
      | some d =>
        if o.paymentMethod = .Online then
          some [("paymentId", detailsGet d "razorpay_payment_id"),
                ("orderId", detailsGet d "razorpay_order_id"),
                ("signature", detailsGet d "razorpay_signature"),
                ("verificationStatus",
                  some (jsOrS (detailsGet d "verificationStatus") "Verified"))]
        else none
      | none => none,
    upiFields :=
      if (o.paymentMethod = .UPI ∨ o.paymentMethod = .CashOnDelivery) ∧
          ¬(o.paymentMethod = .Online ∧ p.paymentDetails.isSome) then
        some [("upiId", some (jsOrS p.upiId "naitikkumar2408-1@oksbi")),
              ("merchantName", some (jsOrS p.merchantName "Pizza Shop")),
              ("merchantCode", some (jsOrS p.merchantCode "PIZZASHP001")),
              ("referenceNumber",
                match p.upiReference with
                | some r => some r
                | none => o.orderNumber)]
      else none }

/-- Result of a successful `processOrderPayment` call. -/
structure PayResult where
  order : Order
  transaction : Option Transaction
deriving DecidableEq, Repr

/-- Order mutation performed by an authorized `processOrderPayment` call:
payment-field updates, the conditional status write, and the pushed history
note (whose recorded status is the post-update one). -/
def payMutate (o : Order) (p : PaymentData) (u : User) (now : Nat) : Order :=
  let o1 := applyPaymentStatus (applyPaymentFields o p now) p u
  { o1 with statusUpdates := o1.statusUpdates ++
      [⟨o1.status, now, paymentNote p u⟩] }

/-- Central payment-reconciliation function `processOrderPayment`: authorize
by role, apply the payment-field updates, conditionally move the status,
push a history note, save, and append a ledger entry exactly when the
caller-supplied `createTransactionRecord` flag is set — the stored
`paymentStatus` is never consulted before creating the ledger row. -/
def processOrderPayment (lookup : Option Order) (p : PaymentData) (u : User)
    (createTransactionRecord : Bool) (now : Nat) :
    Except PayErr PayResult :=
  match lookup with
  | none => .error .orderNotFound
  | some o =>
    if ¬ payAuthorized o u then .error .notAuthorized
    else
      .ok { order := payMutate o p u now,
            transaction :=
              if createTransactionRecord then
                some (buildTransaction (payMutate o p u now) p u)
              else none }

/-! ## `updateOrderPayment` (part_007 lines 165-199) and the ledger state -/

/-- Persistent state a payment call touches: the order document and the
transaction collection. -/
structure Sys where
  order : Order
  ledger : List Transaction
deriving DecidableEq, Repr

/-- Run `processOrderPayment` against the state, persisting the mutated
order and appending the created transaction (if any) to the ledger. -/
def runProcessOrderPayment (s : Sys) (p : PaymentData) (u : User)
    (createTransactionRecord : Bool) (now : Nat) : Except PayErr Sys :=
  match processOrderPayment (some s.order) p u createTransactionRecord now with
  | .error e => .error e
  | .ok r => .ok { order := r.order,
                   ledger := s.ledger ++
                     (match r.transaction with
                      | some t => [t]
                      | none => []) }

/-- Transaction-creation decision of the `updateOrderPayment` endpoint:
the caller-supplied `createTransaction` flag, or a delivery agent reporting
a Completed cash-on-delivery / UPI payment. Only request fields are
consulted; the persisted payment status plays no part. -/
def updateOrderPaymentCreateFlag (createTransaction : Bool) (p : PaymentData)
    (role : Role) : Bool :=
  createTransaction ∨
    (p.paymentStatus = some .Completed ∧ role = .delivery ∧
      (p.paymentMethod = some .CashOnDelivery ∨ p.paymentMethod = some .UPI))

/-- Unified payment endpoint `updateOrderPayment`
(`PUT /api/transactions/:orderId/payment`). -/
def updateOrderPayment (s : Sys) (createTransaction : Bool) (p : PaymentData)
    (u : User) (now : Nat) : Except PayErr Sys :=
  runProcessOrderPayment s p u
    (updateOrderPaymentCreateFlag createTransaction p u.role) now

/-- Number of ledger entries recorded against a given order id. -/
def ledgerCountFor (s : Sys) (orderId : Nat) : Nat :=
  (s.ledger.filter (fun t => t.order = orderId)).length

/-! ## Order pre-save hook (models/Order.js, lines 133-200)

The hook body only runs on the first save, when `orderNumber` is still
falsy. It is split into one definition per block of the hook. -/

/-- Truthiness of the stored `orderNumber` (`!this.orderNumber` gate). -/
def orderNumberTruthy (o : Order) : Bool :=
  match o.orderNumber with
  | none => false
  | some s => s ≠ ""

/-- Seed block: when `statusUpdates` is empty, install the single
"Order created" entry. -/
def preSaveSeedHistory (o : Order) (now : Nat) : Order :=
  if o.statusUpdates = [] then
    { o with statusUpdates := [⟨o.status, now, "Order created"⟩] }
  else o

/-- Sum of the customization prices, `reduce((sum, c) => sum + (c.price || 0), 0)`;
stored prices default to 0 so the inner fallback is the identity. -/
def custPriceSum (cs : List Customization) : Rat :=
  cs.foldl (fun sum c => sum + c.price) 0

/-- Per-item block: when `totalItemPrice` is falsy, recompute it as
`(basePrice || price)` plus the customization, add-on and topping sums
(each added only when its list is non-empty, as in the source). -/
def itemWithTotal (item : OrderItem) : OrderItem :=
  if jsFalsy item.totalItemPrice then
    let t0 := jsOr item.basePrice item.price
    let t1 := if item.customizations ≠ [] then
        t0 + custPriceSum item.customizations else t0
    let t2 := if item.addOns ≠ [] then t1 + custPriceSum item.addOns else t1
    let t3 := if item.toppings ≠ [] then t2 + custPriceSum item.toppings else t2
    { item with totalItemPrice := some t3 }
  else item

/-- Subtotal block: when `subTotal` is falsy, set it to
`sum((totalItemPrice || price) * quantity)`. -/
def preSaveSubTotal (o : Order) : Order :=
  if jsFalsy o.subTotal then
    let st : Rat := o.items.foldl
      (fun sum item => sum + jsOr item.totalItemPrice item.price * item.quantity) 0
    { o with subTotal := some st }
  else o

/-- Tax block: when `tax` is falsy and `subTotal` truthy, estimate the tax
at 5 percent, rounded to two decimals
(`Math.round(subTotal * 0.05 * 100) / 100`). -/
def preSaveTax (o : Order) : Order :=
  if jsFalsy o.tax ∧ ¬ jsFalsy o.subTotal then
    { o with tax := some ((round (jsOr o.subTotal 0 * 5) : Int) / 100) }
  else o

/-- Amount block: when `amount` is falsy, set it to
`(subTotal || 0) + (tax || 0) + (deliveryFee || 0) - ((discounts && discounts.amount) || 0)`;
no lower clamp is applied. -/
def preSaveAmount (o : Order) : Order :=
  if jsFalsy o.amount then
    { o with amount := some (jsOr o.subTotal 0 + jsOr o.tax 0 +
        jsOr o.deliveryFee 0 - discAmount o.discounts) }
  else o

/-- Item-count block: always recomputed on first save. -/
def preSaveItemsCount (o : Order) : Order :=
  let n : Rat := o.items.foldl (fun sum item => sum + item.quantity) 0
  { o with totalItemsCount := some n }

/-- Four-digit zero-padded order number derived from the collection count. -/
def padFour (n : Nat) : String :=
  let s := toString n
  if s.length ≥ 4 then s
  else String.mk (List.replicate (4 - s.length) (Char.ofNat 48)) ++ s

/-- Order-number block: `${count + 1}` zero-padded to four digits. -/
def preSaveAssignNumber (o : Order) (collectionCount : Nat) : Order :=
  { o with orderNumber := some (padFour (collectionCount + 1)) }

/-- Item block applied to the whole list. -/
def preSaveItems (o : Order) : Order :=
  { o with items := o.items.map itemWithTotal }

/-- Mongoose pre-save hook of the order schema: on first save (falsy
`orderNumber`) assign the order number, seed the history, fill the item
totals, the subtotal, the estimated tax, the amount and the item count;
on any later save do nothing. -/
def orderPreSave (o : Order) (now : Nat) (collectionCount : Nat) : Order :=
  if orderNumberTruthy o then o
  else
    preSaveItemsCount (preSaveAmount (preSaveTax (preSaveSubTotal
      (preSaveItems (preSaveSeedHistory (preSaveAssignNumber o collectionCount) now)))))

/-! ## `placeOrder` item processing (orderController.js, lines 372-518)

The request-side shapes: a customization / add-on / topping field can be
absent, an array of objects, or (legacy) a keyed object whose values are
bare strings or objects carrying a price. -/

/-- Incoming modifier object of the array form; every field may be absent. -/
structure ModifierIn where
  name : Option String := none
  option : Option String := none
  price : Option Rat := none
deriving DecidableEq, Repr

/-- Value of one key of the legacy object form: a bare string option, or an
object with optional name / option / price. -/
inductive LegacyValue
  | str (s : String)
  | obj (name : Option String) (opt : Option String) (price : Option Rat)
deriving DecidableEq, Repr

/-- A customizations / add-ons / toppings request field. -/
inductive ModifierField
  | absent
  | arr (mods : List ModifierIn)
  | legacy (entries : List (String × LegacyValue))
deriving DecidableEq, Repr

/-- Incoming order item of the `placeOrder` request body. -/
structure ItemIn where
  name : String
  quantity : Rat
  price : Rat
  basePrice : Option Rat := none
  customizations : ModifierField := .absent
  addOns : ModifierField := .absent
  toppings : ModifierField := .absent
deriving DecidableEq, Repr

/-- Normalised price of one array-form modifier: `Number(m.price || 0)`
keeps a negative price and zeroes only an absent (or zero) one. -/
def modPrice (m : ModifierIn) : Rat := jsOr m.price 0

/-- Price contributed by one legacy-form entry: bare strings contribute 0,
objects contribute `Number(v.price || 0)`. -/
def legacyPrice (v : LegacyValue) : Rat :=
  match v with
  | .str _ => 0
  | .obj _ _ p => jsOr p 0

/-- Price sum a customizations or add-ons field adds to the item total:
array entries add their normalised prices, legacy entries add the object
prices. -/
def modifierFieldSum (f : ModifierField) : Rat :=
  match f with
  | .absent => 0
  | .arr mods => (mods.map modPrice).foldl (· + ·) 0
  | .legacy entries => (entries.map (fun e => legacyPrice e.2)).foldl (· + ·) 0

/-- Price sum the toppings field adds: only the array form is priced, the
legacy object form is ignored for toppings. -/
def toppingsFieldSum (f : ModifierField) : Rat :=
  match f with
  | .arr mods => (mods.map modPrice).foldl (· + ·) 0
  | _ => 0

/-- Normalised array-form modifiers stored on the order. -/
def processArrMods (mods : List ModifierIn) : List Customization :=
  mods.map (fun m =>
    { name := jsOrS m.name "Unknown",
      option := jsOrS m.option "",
      price := modPrice m })

/-- Unit price `totalItemPrice` computed by `placeOrder`:
`(basePrice || price)` plus the sums of the three modifier fields. -/
def processedItemTotal (item : ItemIn) : Rat :=
  jsOr item.basePrice item.price
    + modifierFieldSum item.customizations
    + modifierFieldSum item.addOns
    + toppingsFieldSum item.toppings

/-- Stored order item produced by the `placeOrder` item mapper. -/
def processItem (item : ItemIn) : OrderItem :=
  { name := item.name,
    quantity := item.quantity,
    price := item.price,
    basePrice := some (jsOr item.basePrice item.price),
    totalItemPrice := some (processedItemTotal item),
    customizations :=
      match item.customizations with
      | .arr mods => processArrMods mods
      | .legacy entries => entries.map (fun e =>
          match e.2 with
          | .str s => { name := e.1, option := s, price := 0 }
          | .obj n op p =>
            { name := e.1,
              option := jsOrS n (jsOrS op ""),
              price := jsOr p 0 })
      | .absent => [],
    addOns :=
      match item.addOns with
      | .arr mods => mods.map (fun m =>
          { name := jsOrS m.name "Unknown",
            option := jsOrS m.option (jsOrS m.name ""),
            price := modPrice m })
      | .legacy entries => entries.map (fun e =>
          match e.2 with
          | .str s => { name := s, option := s, price := 0 }
          | .obj n _ p =>
            { name := n.getD "", option := n.getD "", price := jsOr p 0 })
      | .absent => [],
    toppings :=
      match item.toppings with
      | .arr mods => mods.map (fun m =>
          { name := jsOrS m.name "Unknown",
            option := jsOrS m.option (jsOrS m.name ""),
            price := modPrice m })
      | _ => [] }

/-- Subtotal stored by `placeOrder`: the request value when truthy,
otherwise `sum(totalItemPrice * quantity)` over the processed items. -/
def placeOrderSubTotal (reqSubTotal : Option Rat) (items : List ItemIn) : Rat :=
  jsOr reqSubTotal
    ((items.map processItem).foldl
      (fun sum item => sum + jsOr item.totalItemPrice 0 * item.quantity) 0)

/-! ## Observation helpers for concrete runs -/

/-- Status stored after a status-transition call, `none` on failure. -/
def exceptStatus (r : Except StatusErr Order) : Option OrderStatus :=
  match r with
  | .error _ => none
  | .ok o => some o.status

/-- Order status after a payment call, `none` on failure. -/
def payResultStatus (r : Except PayErr PayResult) : Option OrderStatus :=
  match r with
  | .error _ => none
  | .ok res => some res.order.status

/-- Payment status after a payment call, `none` on failure. -/
def payResultPaymentStatus (r : Except PayErr PayResult) : Option PaymentStatus :=
  match r with
  | .error _ => none
  | .ok res => some res.order.paymentStatus

/-- Ledger entries recorded for an order id after a (possibly failed)
stateful payment call. -/
def sysLedgerCount (r : Except PayErr Sys) (orderId : Nat) : Nat :=
  match r with
  | .error _ => 0
  | .ok s => ledgerCountFor s orderId

/-- Non-decreasing history timestamps, the order the spec requires of
`statusHistory`. -/
def timesSorted (l : List StatusUpdate) : Prop :=
  List.Pairwise (fun a b => a.time ≤ b.time) l

/-- Stated from the claim wording, not from the source: the unit price with
a negative or absent modifier price treated as 0, to be compared with the
unit price the code computes. -/
def specClaimUnitPrice (base : Rat) (modPrices : List (Option Rat)) : Rat :=
  base + (modPrices.map (fun p =>
    match p with
    | none => 0
    | some v => if v < 0 then 0 else v)).foldl (· + ·) 0

/-! ## Concrete fixtures used by the claim theorems -/

/-- Order whose discount exceeds subtotal plus tax, saved without a
client-supplied amount. -/
def c2Order : Order :=
  { id := 2, customer := 10, subTotal := some 100, tax := some 5,
    deliveryFee := some 0, discounts := some { amount := 200 } }

/-- Item with one negatively priced add-on. -/
def c6Item : ItemIn :=
  { name := "margherita", quantity := 2, price := 100,
    addOns := .arr [{ price := some (-50) }] }

/-- Admin actor used for the terminal-state run. -/
def c3Admin : User := { id := 99, role := .admin }

/-- A delivered order. -/
def c3Order : Order := { id := 3, customer := 10, status := .Delivered }

/-- Result document of the admin transition out of Delivered. -/
def c3Moved : Order := applyStatusChange c3Order c3Admin .Pending none 7

/-- Delivery agent assigned to the C4 order. -/
def c4Agent : User := { id := 5, role := .delivery }

/-- Cash-on-delivery order, payment still pending, assigned to agent 5. -/
def c4Order : Order :=
  { id := 4, customer := 10, deliveryAgent := some 5,
    paymentMethod := .CashOnDelivery, paymentStatus := .Pending,
    status := .OutForDelivery }

/-- Payment payload that only carries a requested status. -/
def c4Pay : PaymentData := { status := some .Delivered }

/-- Customer actor owning the C5 order. -/
def c5Cust : User := { id := 10, role := .customer }

/-- Preparing order owned by customer 10. -/
def c5Order : Order := { id := 55, customer := 10, status := .Preparing }

/-- Customer owning the C9 order. -/
def c9Cust : User := { id := 10, role := .customer }

/-- Cash-on-delivery order of customer 10, payment still pending. -/
def c9Order : Order :=
  { id := 9, customer := 10, paymentMethod := .CashOnDelivery,
    paymentStatus := .Pending }

/-- Payload by which the customer self-confirms the cash settlement. -/
def c9Pay : PaymentData := { paymentStatus := some .Completed }

/-- Admin caller used in the C10 witness. -/
def c10Admin : User := { id := 1, role := .admin }

/-- Pending online order used in the C10 witness. -/
def c10Order : Order :=
  { id := 12, customer := 20, paymentMethod := .Online, status := .Pending }

/-- Payload asking an admin reconciliation to complete payment and move to
Preparing. -/
def c10Pay : PaymentData :=
  { paymentStatus := some .Completed, status := some .Preparing }

/-- Delivery agent assigned to the C1 order. -/
def c1Agent : User := { id := 2, role := .delivery }

/-- Cash-on-delivery order whose payment is already Completed. -/
def c1Order : Order :=
  { id := 1, customer := 10, deliveryAgent := some 2,
    paymentMethod := .CashOnDelivery, paymentStatus := .Completed,
    status := .OutForDelivery, amount := some 500,
    orderNumber := some "0001" }

/-- Completion payload a delivery agent posts for a cash settlement. -/
def c1Pay : PaymentData :=
  { paymentStatus := some .Completed, paymentMethod := some .CashOnDelivery }

/-- Starting state: the completed order with an empty ledger. -/
def c1Sys : Sys := { order := c1Order, ledger := [] }

/-- State after two identical completion calls through the
`updateOrderPayment` endpoint. -/
def c1After : Except PayErr Sys :=
  match updateOrderPayment c1Sys false c1Pay c1Agent 1000 with
  | .error e => .error e
  | .ok s1 => updateOrderPayment s1 false c1Pay c1Agent 2000

/-! ## Helper lemmas about the status transition -/

theorem applyStatusChange_status (o : Order) (u : User) (s : OrderStatus)
    (note : Option String) (now : Nat) :
    (applyStatusChange o u s note now).status = s := by
  unfold applyStatusChange
  split <;> rfl

theorem applyStatusChange_statusUpdates (o : Order) (u : User)
    (s : OrderStatus) (note : Option String) (now : Nat) :
    (applyStatusChange o u s note now).statusUpdates =
      o.statusUpdates ++ [⟨s, now, jsOrS note (defaultStatusNote s u.role)⟩] := by
  unfold applyStatusChange
  split <;> rfl

theorem applyStatusChange_eta_set (o : Order) (u : User) (note : Option String)
    (now : Nat) (h : o.estimatedDeliveryTime = none) :
    (applyStatusChange o u .OutForDelivery note now).estimatedDeliveryTime =
      some (now + thirtyMinutesMs) := by
  unfold applyStatusChange
  rw [if_pos ⟨rfl, h⟩]

theorem applyStatusChange_eta_keep (o : Order) (u : User) (s : OrderStatus)
    (note : Option String) (now : Nat) (t : Nat)
    (h : o.estimatedDeliveryTime = some t) :
    (applyStatusChange o u s note now).estimatedDeliveryTime = some t := by
  unfold applyStatusChange
  rw [if_neg]
  · exact h
  · rintro ⟨-, h2⟩
    rw [h] at h2
    exact Option.noConfusion h2

theorem applyStatusChange_eta_other (o : Order) (u : User) (s : OrderStatus)
    (note : Option String) (now : Nat) (h : s ≠ .OutForDelivery) :
    (applyStatusChange o u s note now).estimatedDeliveryTime =
      o.estimatedDeliveryTime := by
  unfold applyStatusChange
  rw [if_neg]
  rintro ⟨h1, -⟩
  exact h h1

/-- Every successful `updateOrderStatus` call returns exactly the
`applyStatusChange` mutation of the looked-up order. -/
theorem updateOrderStatus_ok (u : User) (status : OrderStatus)
    (note : Option String) (now : Nat) (o o2 : Order)
    (h : updateOrderStatus u status note now (some o) = .ok o2) :
    o2 = applyStatusChange o u status note now := by
  unfold updateOrderStatus at h
  cases hu : u.role <;> rw [hu] at h <;>
    (repeat' split at h) <;> simp_all

/-! ## Claim C3: terminal states -/

/-- C3 is false on the code: an admin call on a Delivered order succeeds and
moves the status back to Pending, so a transition out of a terminal state is
permitted. -/
theorem c3_terminal_escape_counterexample :
    c3Order.status = .Delivered ∧
    exceptStatus (updateOrderStatus c3Admin .Pending none 7 (some c3Order)) =
      some .Pending := by
  constructor
  · rfl
  · rfl

/-- C3 amended: only the customer branch checks the current status, so any
successful transition out of a Delivered or Cancelled order was made by an
admin or a delivery agent; a customer call can never move an order out of a
terminal state. -/
theorem c3_terminal_escape_amended (u : User) (o : Order)
    (status : OrderStatus) (note : Option String) (now : Nat) (o2 : Order)
    (hterm : o.status = .Delivered ∨ o.status = .Cancelled)
    (h : updateOrderStatus u status note now (some o) = .ok o2) :
    u.role = .admin ∨ u.role = .delivery := by
  cases hu : u.role
  · exact Or.inl rfl
  · exact Or.inr rfl
  · exfalso
    unfold updateOrderStatus at h
    rw [hu] at h
    have hst : o.status ≠ .Pending ∧ o.status ≠ .Preparing := by
      rcases hterm with h1 | h1 <;> rw [h1] <;> exact ⟨by decide, by decide⟩
    (repeat' split at h) <;> simp_all

/-- Witness: the amended C3 theorem applies to the concrete admin run of the
counterexample input. -/
theorem c3_terminal_escape_witness :
    (c3Order.status = .Delivered ∨ c3Order.status = .Cancelled) ∧
    (c3Admin.role = .admin ∨ c3Admin.role = .delivery) :=
  ⟨Or.inl rfl,
    c3_terminal_escape_amended c3Admin c3Order .Pending none 7 c3Moved
      (Or.inl rfl) rfl⟩

/-! ## Claim C4: delivering an unpaid cash-on-delivery order -/

/-- C4 is false as a statement about every mutation path: through
`processOrderPayment` the assigned delivery agent moves the unpaid
cash-on-delivery order to Delivered without any error, payment still
pending. -/
theorem c4_cod_unpaid_counterexample :
    c4Order.paymentMethod = .CashOnDelivery ∧
    c4Order.paymentStatus = .Pending ∧
    payResultStatus (processOrderPayment (some c4Order) c4Pay c4Agent false 9) =
      some .Delivered ∧
    payResultPaymentStatus
      (processOrderPayment (some c4Order) c4Pay c4Agent false 9) =
      some .Pending := by
  exact ⟨rfl, rfl, rfl, rfl⟩

/-- C4 amended: on the `updateOrderStatus` path the guard does hold — an
assigned delivery agent setting a cash-on-delivery order to Delivered while
its payment status is not Completed gets the 400 state error and no order is
returned; the payment-reconciliation path does not perform this check. -/
theorem c4_cod_unpaid_amended (u : User) (o : Order) (note : Option String)
    (now : Nat) (hrole : u.role = .delivery)
    (hassigned : o.deliveryAgent = some u.id)
    (hcod : o.paymentMethod = .CashOnDelivery)
    (hps : o.paymentStatus ≠ .Completed) :
    updateOrderStatus u .Delivered note now (some o) =
      .error .codPaymentIncomplete ∧
    StatusErr.codPaymentIncomplete.kind = .state := by
  constructor
  · simp [updateOrderStatus, hrole, hassigned, hcod, hps]
  · rfl

/-- Witness for the amended C4 theorem on the concrete unpaid order, called
through the status endpoint. -/
theorem c4_cod_unpaid_witness :
    updateOrderStatus c4Agent .Delivered none 9 (some c4Order) =
      .error .codPaymentIncomplete ∧
    StatusErr.codPaymentIncomplete.kind = .state :=
  c4_cod_unpaid_amended c4Agent c4Order none 9 rfl rfl rfl (by decide)

/-! ## Claim C8: estimated delivery time on going out for delivery -/

/-- C8 confirmed: any successful status transition sets the estimated
delivery time to thirty minutes after the clock exactly when the target is
Out for delivery and no estimate exists yet; an existing estimate is never
changed, and other targets never touch the field. -/
theorem c8_estimated_delivery_time (u : User) (status : OrderStatus)
    (note : Option String) (now : Nat) (o o2 : Order)
    (h : updateOrderStatus u status note now (some o) = .ok o2) :
    (status = .OutForDelivery → o.estimatedDeliveryTime = none →
      o2.estimatedDeliveryTime = some (now + thirtyMinutesMs)) ∧
    (∀ t, o.estimatedDeliveryTime = some t →
      o2.estimatedDeliveryTime = some t) ∧
    (status ≠ .OutForDelivery →
      o2.estimatedDeliveryTime = o.estimatedDeliveryTime) := by
  have h2 := updateOrderStatus_ok u status note now o o2 h
  subst h2
  refine ⟨?_, ?_, ?_⟩
  · intro hs hnone
    subst hs
    exact applyStatusChange_eta_set o u note now hnone
  · intro t ht
    exact applyStatusChange_eta_keep o u status note now t ht
  · intro hs
    exact applyStatusChange_eta_other o u status note now hs

/-- Witness: the admin run of the C3 input (an order with no estimate)
going out for delivery receives the thirty-minute estimate. -/
theorem c8_estimated_delivery_time_witness :
    (applyStatusChange c3Order c3Admin .OutForDelivery none 7).estimatedDeliveryTime =
      some (7 + thirtyMinutesMs) :=
  (c8_estimated_delivery_time c3Admin .OutForDelivery none 7 c3Order
    (applyStatusChange c3Order c3Admin .OutForDelivery none 7) rfl).1 rfl rfl

/-! ## Helper lemmas about the payment mutation -/

theorem applyPaymentFields_status (o : Order) (p : PaymentData) (now : Nat) :
    (applyPaymentFields o p now).status = o.status := by
  unfold applyPaymentFields
  cases p.paymentStatus <;> cases p.paymentMethod <;> cases p.paymentDetails <;> rfl

theorem applyPaymentFields_statusUpdates (o : Order) (p : PaymentData)
    (now : Nat) :
    (applyPaymentFields o p now).statusUpdates = o.statusUpdates := by
  unfold applyPaymentFields
  cases p.paymentStatus <;> cases p.paymentMethod <;> cases p.paymentDetails <;> rfl

theorem applyPaymentFields_deliveryAgent (o : Order) (p : PaymentData)
    (now : Nat) :
    (applyPaymentFields o p now).deliveryAgent = o.deliveryAgent := by
  unfold applyPaymentFields
  cases p.paymentStatus <;> cases p.paymentMethod <;> cases p.paymentDetails <;> rfl

theorem applyPaymentFields_customer (o : Order) (p : PaymentData) (now : Nat) :
    (applyPaymentFields o p now).customer = o.customer := by
  unfold applyPaymentFields
  cases p.paymentStatus <;> cases p.paymentMethod <;> cases p.paymentDetails <;> rfl

theorem applyPaymentFields_paymentStatus (o : Order) (p : PaymentData)
    (now : Nat) :
    (applyPaymentFields o p now).paymentStatus =
      (match p.paymentStatus with
       | some ps => ps
       | none => o.paymentStatus) := by
  unfold applyPaymentFields
  cases p.paymentStatus <;> cases p.paymentMethod <;> cases p.paymentDetails <;> rfl

theorem applyPaymentFields_paymentMethod (o : Order) (p : PaymentData)
    (now : Nat) :
    (applyPaymentFields o p now).paymentMethod =
      (match p.paymentMethod with
       | some pm => pm
       | none => o.paymentMethod) := by
  unfold applyPaymentFields
  cases p.paymentStatus <;> cases p.paymentMethod <;> cases p.paymentDetails <;> rfl

theorem applyPaymentFields_paymentDetails (o : Order) (p : PaymentData)
    (now : Nat) (d : List (String × String)) (h : p.paymentDetails = some d) :
    (applyPaymentFields o p now).paymentDetails =
      { fields := spreadMerge o.paymentDetails.fields d,
        updatedAt := some now } := by
  unfold applyPaymentFields
  cases p.paymentStatus <;> cases p.paymentMethod <;> rw [h]

theorem applyPaymentStatus_paymentStatus (o : Order) (p : PaymentData)
    (u : User) :
    (applyPaymentStatus o p u).paymentStatus = o.paymentStatus := by
  unfold applyPaymentStatus
  repeat' split
  all_goals rfl

theorem applyPaymentStatus_paymentMethod (o : Order) (p : PaymentData)
    (u : User) :
    (applyPaymentStatus o p u).paymentMethod = o.paymentMethod := by
  unfold applyPaymentStatus
  repeat' split
  all_goals rfl

theorem applyPaymentStatus_paymentDetails (o : Order) (p : PaymentData)
    (u : User) :
    (applyPaymentStatus o p u).paymentDetails = o.paymentDetails := by
  unfold applyPaymentStatus
  repeat' split
  all_goals rfl

theorem applyPaymentStatus_statusUpdates (o : Order) (p : PaymentData)
    (u : User) :
    (applyPaymentStatus o p u).statusUpdates = o.statusUpdates := by
  unfold applyPaymentStatus
  repeat' split
  all_goals rfl

theorem applyPaymentStatus_deliveryAgent (o : Order) (p : PaymentData)
    (u : User) :
    (applyPaymentStatus o p u).deliveryAgent = o.deliveryAgent := by
  unfold applyPaymentStatus
  repeat' split
  all_goals rfl

theorem applyPaymentStatus_customer (o : Order) (p : PaymentData) (u : User) :
    (applyPaymentStatus o p u).customer = o.customer := by
  unfold applyPaymentStatus
  repeat' split
  all_goals rfl

theorem applyPaymentStatus_status_none (o : Order) (p : PaymentData)
    (u : User) (h : p.status = none) :
    (applyPaymentStatus o p u).status = o.status := by
  simp [applyPaymentStatus, h]

theorem applyPaymentStatus_status_customer (o : Order) (p : PaymentData)
    (u : User) (h : u.role = .customer) :
    (applyPaymentStatus o p u).status = o.status := by
  cases hs : p.status <;> simp [applyPaymentStatus, hs, h]

theorem applyPaymentStatus_status_disallowed (o : Order) (p : PaymentData)
    (u : User) (s : OrderStatus) (h : p.status = some s)
    (hs : ¬(s = .Preparing ∨ s = .OutForDelivery ∨ s = .Delivered)) :
    (applyPaymentStatus o p u).status = o.status := by
  simp [applyPaymentStatus, h, hs]

theorem applyPaymentStatus_status_allowed (o : Order) (p : PaymentData)
    (u : User) (s : OrderStatus) (h : p.status = some s)
    (hs : s = .Preparing ∨ s = .OutForDelivery ∨ s = .Delivered)
    (hr : u.role = .delivery ∨ u.role = .admin) :
    (applyPaymentStatus o p u).status = s := by
  simp only [applyPaymentStatus, h]
  rw [if_pos ⟨hs, hr⟩]

theorem payMutate_paymentStatus (o : Order) (p : PaymentData) (u : User)
    (now : Nat) :
    (payMutate o p u now).paymentStatus =
      (match p.paymentStatus with
       | some ps => ps
       | none => o.paymentStatus) := by
  dsimp only [payMutate]
  rw [applyPaymentStatus_paymentStatus, applyPaymentFields_paymentStatus]

theorem payMutate_paymentMethod (o : Order) (p : PaymentData) (u : User)
    (now : Nat) :
    (payMutate o p u now).paymentMethod =
      (match p.paymentMethod with
       | some pm => pm
       | none => o.paymentMethod) := by
  dsimp only [payMutate]
  rw [applyPaymentStatus_paymentMethod, applyPaymentFields_paymentMethod]

theorem payMutate_status (o : Order) (p : PaymentData) (u : User) (now : Nat) :
    (payMutate o p u now).status =
      (applyPaymentStatus (applyPaymentFields o p now) p u).status := by
  dsimp only [payMutate]

theorem payMutate_deliveryAgent (o : Order) (p : PaymentData) (u : User)
    (now : Nat) :
    (payMutate o p u now).deliveryAgent = o.deliveryAgent := by
  dsimp only [payMutate]
  rw [applyPaymentStatus_deliveryAgent, applyPaymentFields_deliveryAgent]

theorem payMutate_customer (o : Order) (p : PaymentData) (u : User)
    (now : Nat) :
    (payMutate o p u now).customer = o.customer := by
  dsimp only [payMutate]
  rw [applyPaymentStatus_customer, applyPaymentFields_customer]

theorem payMutate_statusUpdates (o : Order) (p : PaymentData) (u : User)
    (now : Nat) :
    (payMutate o p u now).statusUpdates = o.statusUpdates ++
      [⟨(applyPaymentStatus (applyPaymentFields o p now) p u).status, now,
        paymentNote p u⟩] := by
  dsimp only [payMutate]
  rw [applyPaymentStatus_statusUpdates, applyPaymentFields_statusUpdates]

/-- Successful-call characterization of `processOrderPayment`. -/
theorem processOrderPayment_auth_ok (o : Order) (p : PaymentData) (u : User)
    (ct : Bool) (now : Nat) (h : payAuthorized o u = true) :
    processOrderPayment (some o) p u ct now =
      .ok { order := payMutate o p u now,
            transaction :=
              if ct then some (buildTransaction (payMutate o p u now) p u)
              else none } := by
  simp [processOrderPayment, h]

/-- Failed-authorization characterization of `processOrderPayment`. -/
theorem processOrderPayment_auth_fail (o : Order) (p : PaymentData) (u : User)
    (ct : Bool) (now : Nat) (h : payAuthorized o u = false) :
    processOrderPayment (some o) p u ct now = .error .notAuthorized := by
  simp [processOrderPayment, h]

/-- Every successful `processOrderPayment` call returns the `payMutate`
mutation and the flag-controlled transaction. -/
theorem processOrderPayment_ok (o : Order) (p : PaymentData) (u : User)
    (ct : Bool) (now : Nat) (r : PayResult)
    (h : processOrderPayment (some o) p u ct now = .ok r) :
    payAuthorized o u = true ∧ r.order = payMutate o p u now := by
  by_cases hauth : payAuthorized o u = true
  · rw [processOrderPayment_auth_ok o p u ct now hauth] at h
    exact ⟨hauth, by rw [← Except.ok.inj h]⟩
  · rw [processOrderPayment_auth_fail o p u ct now
      (Bool.not_eq_true _ ▸ hauth)] at h
    exact absurd h (by simp)

/-! ## Claim C5: customer transition policy -/

/-- C5 confirmed, on both customer-reachable mutation paths. Through
`updateOrderStatus`, a customer targeting anything but Cancelled gets the
403 authorization error; targeting Cancelled, an ownership mismatch gets
the 403 authorization error, a status outside Pending / Preparing gets the
400 state error, and otherwise cancellation succeeds. Through
`cancelMyOrder`, an ownership mismatch gets the 401 authorization error, a
late status gets the 400 state error, and otherwise cancellation
succeeds. -/
theorem c5_customer_transition_policy (u : User) (o : Order)
    (note : Option String) (now : Nat) (hrole : u.role = .customer) :
    (∀ status, status ≠ .Cancelled →
      updateOrderStatus u status note now (some o) =
        .error .customersOnlyCancel ∧
      StatusErr.customersOnlyCancel.kind = .authorization) ∧
    (o.customer ≠ u.id →
      updateOrderStatus u .Cancelled note now (some o) =
        .error .notOrderOwner ∧
      StatusErr.notOrderOwner.kind = .authorization) ∧
    (o.customer = u.id → o.status ≠ .Pending → o.status ≠ .Preparing →
      updateOrderStatus u .Cancelled note now (some o) =
        .error .notCancellable ∧
      StatusErr.notCancellable.kind = .state) ∧
    (o.customer = u.id → (o.status = .Pending ∨ o.status = .Preparing) →
      ∃ o2, updateOrderStatus u .Cancelled note now (some o) = .ok o2 ∧
        o2.status = .Cancelled) ∧
    (o.customer ≠ u.id →
      cancelMyOrder u.id now (some o) = .error .notAuthorized ∧
      CancelErr.notAuthorized.kind = .authorization) ∧
    (o.customer = u.id → o.status ≠ .Pending → o.status ≠ .Preparing →
      cancelMyOrder u.id now (some o) = .error .cannotCancel ∧
      CancelErr.cannotCancel.kind = .state) ∧
    (o.customer = u.id → (o.status = .Pending ∨ o.status = .Preparing) →
      ∃ o2, cancelMyOrder u.id now (some o) = .ok o2 ∧
        o2.status = .Cancelled) := by
  refine ⟨?_, ?_, ?_, ?_, ?_, ?_, ?_⟩
  · intro status hs
    exact ⟨by simp [updateOrderStatus, hrole, hs], rfl⟩
  · intro hown
    exact ⟨by simp [updateOrderStatus, hrole, hown], rfl⟩
  · intro hown hp hq
    exact ⟨by simp [updateOrderStatus, hrole, hown, hp, hq], rfl⟩
  · intro hown hstat
    refine ⟨applyStatusChange o u .Cancelled note now, ?_,
      applyStatusChange_status o u .Cancelled note now⟩
    rcases hstat with h1 | h1 <;> simp [updateOrderStatus, hrole, hown, h1]
  · intro hown
    exact ⟨by simp [cancelMyOrder, hown], rfl⟩
  · intro hown hp hq
    exact ⟨by simp [cancelMyOrder, hown, hp, hq], rfl⟩
  · intro hown hstat
    have hrun : cancelMyOrder u.id now (some o) = .ok { o with
        status := .Cancelled,
        statusUpdates := o.statusUpdates ++
          [⟨.Cancelled, now, "Cancelled by customer"⟩] } := by
      rcases hstat with h1 | h1 <;> simp [cancelMyOrder, hown, h1]
    exact ⟨_, hrun, rfl⟩

/-- Witness: the C5 theorem applies to a concrete customer, rejecting a
Delivered target and letting the same customer cancel the Preparing
order. -/
theorem c5_customer_transition_policy_witness :
    (updateOrderStatus c5Cust .Delivered none 4 (some c5Order) =
        .error .customersOnlyCancel ∧
      StatusErr.customersOnlyCancel.kind = .authorization) ∧
    (∃ o2, cancelMyOrder c5Cust.id 4 (some c5Order) = .ok o2 ∧
      o2.status = .Cancelled) := by
  have h := c5_customer_transition_policy c5Cust c5Order none 4 rfl
  exact ⟨h.1 .Delivered (by decide), h.2.2.2.2.2.2 rfl (Or.inr rfl)⟩

/-! ## Claim C9: customer reconciliation -/

/-- C9 is false on the code: the owning customer calls reconciliation with
`paymentStatus: Completed` on their own cash-on-delivery order and the call
succeeds, leaving the payment status Completed — the customer can
self-confirm a cash settlement. -/
theorem c9_customer_selfconfirm_counterexample :
    c9Order.paymentMethod = .CashOnDelivery ∧
    c9Order.customer = c9Cust.id ∧
    payResultPaymentStatus
      (processOrderPayment (some c9Order) c9Pay c9Cust false 3) =
      some .Completed := by
  exact ⟨rfl, rfl, rfl⟩

/-- C9 amended: the ownership half of the claim holds — a customer call on
a foreign order fails with the 403 authorization error — but an owning
customer faces no per-field restriction: the call succeeds and stores
whatever payment status the payload carries (including Completed on a
cash-on-delivery order); only the order status is kept unchanged for
customers. -/
theorem c9_customer_reconciliation_amended (o : Order) (p : PaymentData)
    (u : User) (ct : Bool) (now : Nat) (hrole : u.role = .customer) :
    (o.customer ≠ u.id →
      processOrderPayment (some o) p u ct now = .error .notAuthorized ∧
      PayErr.notAuthorized.kind = .authorization) ∧
    (o.customer = u.id →
      ∃ r, processOrderPayment (some o) p u ct now = .ok r ∧
        r.order.paymentStatus =
          (match p.paymentStatus with
           | some ps => ps
           | none => o.paymentStatus) ∧
        r.order.status = o.status) := by
  constructor
  · intro hown
    refine ⟨?_, rfl⟩
    apply processOrderPayment_auth_fail
    simp [payAuthorized, hrole, hown]
  · intro hown
    have hauth : payAuthorized o u = true := by
      simp [payAuthorized, hrole, hown]
    refine ⟨_, processOrderPayment_auth_ok o p u ct now hauth, ?_, ?_⟩
    · exact payMutate_paymentStatus o p u now
    · rw [payMutate_status]
      rw [applyPaymentStatus_status_customer _ _ _ hrole]
      exact applyPaymentFields_status o p now

/-- Witness: the amended C9 theorem applied to the self-confirmation input,
and to a second customer (id 11) who does not own the order. -/
theorem c9_customer_reconciliation_witness :
    (processOrderPayment (some c9Order) c9Pay { id := 11, role := .customer }
        false 3 = .error .notAuthorized ∧
      PayErr.notAuthorized.kind = .authorization) ∧
    (∃ r, processOrderPayment (some c9Order) c9Pay c9Cust false 3 = .ok r ∧
      r.order.paymentStatus =
        (match c9Pay.paymentStatus with
         | some ps => ps
         | none => c9Order.paymentStatus) ∧
      r.order.status = c9Order.status) :=
  ⟨(c9_customer_reconciliation_amended c9Order c9Pay
      { id := 11, role := .customer } false 3 rfl).1 (by decide),
   (c9_customer_reconciliation_amended c9Order c9Pay c9Cust false 3 rfl).2 rfl⟩

/-! ## Claim C10: status frame of reconciliation -/

/-- C10 confirmed: a successful reconciliation call moves the order status
exactly when the caller is a delivery agent or an admin and the requested
status is Preparing, Out for delivery or Delivered; for a customer caller,
an absent status, or any other requested status the stored status is
untouched, while the payment-field updates are applied in every case. -/
theorem c10_reconcile_status_frame (o : Order) (p : PaymentData) (u : User)
    (ct : Bool) (now : Nat) (r : PayResult)
    (h : processOrderPayment (some o) p u ct now = .ok r) :
    (∀ s, p.status = some s →
      (s = .Preparing ∨ s = .OutForDelivery ∨ s = .Delivered) →
      (u.role = .delivery ∨ u.role = .admin) → r.order.status = s) ∧
    (u.role = .customer → r.order.status = o.status) ∧
    (p.status = none → r.order.status = o.status) ∧
    (∀ s, p.status = some s →
      ¬(s = .Preparing ∨ s = .OutForDelivery ∨ s = .Delivered) →
      r.order.status = o.status) ∧
    (r.order.paymentStatus =
      (match p.paymentStatus with
       | some ps => ps
       | none => o.paymentStatus)) ∧
    (r.order.paymentMethod =
      (match p.paymentMethod with
       | some pm => pm
       | none => o.paymentMethod)) := by
  have hord := (processOrderPayment_ok o p u ct now r h).2
  rw [hord]
  refine ⟨?_, ?_, ?_, ?_, ?_, ?_⟩
  · intro s hs hallow hr
    rw [payMutate_status]
    exact applyPaymentStatus_status_allowed _ p u s hs hallow hr
  · intro hrole
    rw [payMutate_status, applyPaymentStatus_status_customer _ _ _ hrole]
    exact applyPaymentFields_status o p now
  · intro hnone
    rw [payMutate_status, applyPaymentStatus_status_none _ _ _ hnone]
    exact applyPaymentFields_status o p now
  · intro s hs hdis
    rw [payMutate_status, applyPaymentStatus_status_disallowed _ _ _ s hs hdis]
    exact applyPaymentFields_status o p now
  · exact payMutate_paymentStatus o p u now
  · exact payMutate_paymentMethod o p u now

/-- Witness: the C10 theorem applied to a concrete admin reconciliation
whose requested status Preparing is written together with the payment
update. -/
theorem c10_reconcile_status_frame_witness :
    (payMutate c10Order c10Pay c10Admin 6).status = .Preparing ∧
    (payMutate c10Order c10Pay c10Admin 6).paymentStatus =
      (match c10Pay.paymentStatus with
       | some ps => ps
       | none => c10Order.paymentStatus) := by
  have h := c10_reconcile_status_frame c10Order c10Pay c10Admin false 6
    { order := payMutate c10Order c10Pay c10Admin 6, transaction := none }
    (processOrderPayment_auth_ok c10Order c10Pay c10Admin false 6 rfl)
  exact ⟨h.1 .Preparing rfl (Or.inl rfl) (Or.inr rfl), h.2.2.2.2.1⟩

/-! ## Claim C1: ledger idempotency -/

/-- C1 is false on the code: the order starts with paymentStatus already
Completed, yet each of the two identical reconciliation calls appends a
ledger row, leaving two Transactions for the order instead of one. -/
theorem c1_ledger_idempotency_counterexample :
    c1Order.paymentStatus = .Completed ∧
    sysLedgerCount c1After c1Order.id = 2 := by
  exact ⟨rfl, rfl⟩

/-- One stateful reconciliation step by an assigned delivery agent always
succeeds and grows the ledger by the flag-controlled number of rows,
independently of the stored payment status. -/
theorem runProcessOrderPayment_delivery (s : Sys) (p : PaymentData) (u : User)
    (ct : Bool) (now : Nat) (hrole : u.role = .delivery)
    (hassigned : s.order.deliveryAgent = some u.id) :
    runProcessOrderPayment s p u ct now =
      .ok { order := payMutate s.order p u now,
            ledger := s.ledger ++
              (if ct then [buildTransaction (payMutate s.order p u now) p u]
               else []) } := by
  have hauth : payAuthorized s.order u = true := by
    simp [payAuthorized, hrole, hassigned]
  unfold runProcessOrderPayment
  rw [processOrderPayment_auth_ok s.order p u ct now hauth]
  cases ct <;> simp

/-- C1 amended: the transaction-creation decision reads only the request
(the explicit flag, or a delivery agent reporting a Completed
cash-on-delivery / UPI payment) and never the stored payment status, so two
identical completion calls by the assigned delivery agent both succeed and
leave two more ledger rows than before. -/
theorem c1_ledger_idempotency_amended (s : Sys) (p : PaymentData) (u : User)
    (now1 now2 : Nat) (hrole : u.role = .delivery)
    (hassigned : s.order.deliveryAgent = some u.id)
    (hps : p.paymentStatus = some .Completed)
    (hpm : p.paymentMethod = some .CashOnDelivery) :
    ∃ s1 s2, updateOrderPayment s false p u now1 = .ok s1 ∧
      updateOrderPayment s1 false p u now2 = .ok s2 ∧
      s2.ledger.length = s.ledger.length + 2 := by
  have hflag : updateOrderPaymentCreateFlag false p u.role = true := by
    simp [updateOrderPaymentCreateFlag, hps, hpm, hrole]
  have h1 : updateOrderPayment s false p u now1 =
      .ok { order := payMutate s.order p u now1,
            ledger := s.ledger ++
              [buildTransaction (payMutate s.order p u now1) p u] } := by
    unfold updateOrderPayment
    rw [hflag]
    rw [runProcessOrderPayment_delivery s p u true now1 hrole hassigned]
    simp
  have h2 : updateOrderPayment
      { order := payMutate s.order p u now1,
        ledger := s.ledger ++
          [buildTransaction (payMutate s.order p u now1) p u] }
      false p u now2 =
      .ok { order := payMutate (payMutate s.order p u now1) p u now2,
            ledger := (s.ledger ++
                [buildTransaction (payMutate s.order p u now1) p u]) ++
              [buildTransaction
                (payMutate (payMutate s.order p u now1) p u now2) p u] } := by
    unfold updateOrderPayment
    rw [hflag]
    rw [runProcessOrderPayment_delivery _ p u true now2 hrole
      (by rw [payMutate_deliveryAgent]; exact hassigned)]
    simp
  exact ⟨_, _, h1, h2, by simp⟩

/-- Witness: the amended C1 theorem applied to the concrete
already-completed order of the counterexample. -/
theorem c1_ledger_idempotency_witness :
    c1Sys.order.paymentStatus = .Completed ∧
    (∃ s1 s2, updateOrderPayment c1Sys false c1Pay c1Agent 1000 = .ok s1 ∧
      updateOrderPayment s1 false c1Pay c1Agent 2000 = .ok s2 ∧
      s2.ledger.length = c1Sys.ledger.length + 2) :=
  ⟨rfl, c1_ledger_idempotency_amended c1Sys c1Pay c1Agent 1000 2000
    rfl rfl rfl rfl⟩

/-! ## Helper lemmas about the pre-save hook stages -/

theorem preSaveAssignNumber_amount (o : Order) (cnt : Nat) :
    (preSaveAssignNumber o cnt).amount = o.amount := rfl

theorem preSaveSeedHistory_amount (o : Order) (now : Nat) :
    (preSaveSeedHistory o now).amount = o.amount := by
  unfold preSaveSeedHistory
  split <;> rfl

theorem preSaveItems_amount (o : Order) :
    (preSaveItems o).amount = o.amount := rfl

theorem preSaveSubTotal_amount (o : Order) :
    (preSaveSubTotal o).amount = o.amount := by
  unfold preSaveSubTotal
  split <;> rfl

theorem preSaveTax_amount (o : Order) :
    (preSaveTax o).amount = o.amount := by
  unfold preSaveTax
  split <;> rfl

theorem preSaveItemsCount_amount (o : Order) :
    (preSaveItemsCount o).amount = o.amount := rfl

theorem preSaveAmount_subTotal (o : Order) :
    (preSaveAmount o).subTotal = o.subTotal := by
  unfold preSaveAmount
  split <;> rfl

theorem preSaveAmount_tax (o : Order) :
    (preSaveAmount o).tax = o.tax := by
  unfold preSaveAmount
  split <;> rfl

theorem preSaveAmount_deliveryFee (o : Order) :
    (preSaveAmount o).deliveryFee = o.deliveryFee := by
  unfold preSaveAmount
  split <;> rfl

theorem preSaveAmount_discounts (o : Order) :
    (preSaveAmount o).discounts = o.discounts := by
  unfold preSaveAmount
  split <;> rfl

theorem preSaveItemsCount_subTotal (o : Order) :
    (preSaveItemsCount o).subTotal = o.subTotal := rfl

theorem preSaveItemsCount_tax (o : Order) :
    (preSaveItemsCount o).tax = o.tax := rfl

theorem preSaveItemsCount_deliveryFee (o : Order) :
    (preSaveItemsCount o).deliveryFee = o.deliveryFee := rfl

theorem preSaveItemsCount_discounts (o : Order) :
    (preSaveItemsCount o).discounts = o.discounts := rfl

theorem preSaveAmount_set (o : Order) (h : jsFalsy o.amount = true) :
    (preSaveAmount o).amount =
      some (jsOr o.subTotal 0 + jsOr o.tax 0 + jsOr o.deliveryFee 0 -
        discAmount o.discounts) := by
  simp [preSaveAmount, h]

theorem preSaveAmount_keep (o : Order) (h : jsFalsy o.amount = false) :
    (preSaveAmount o).amount = o.amount := by
  simp [preSaveAmount, h]

/-! ## Claim C2: the stored total -/

/-- C2 is false on the code: for the order with a 200 discount against a
105 gross, the hook stores amount −95, not the clamped
max(0, subtotal + tax + deliveryFee − discount) = 0 the claim requires. -/
theorem c2_total_clamp_counterexample :
    (orderPreSave c2Order 0 0).amount = some (-95) ∧
    (orderPreSave c2Order 0 0).amount ≠
      some (max 0 (jsOr c2Order.subTotal 0 + jsOr c2Order.tax 0 +
        jsOr c2Order.deliveryFee 0 - discAmount c2Order.discounts)) := by
  have hval : (orderPreSave c2Order 0 0).amount = some (-95) := by
    norm_num [orderPreSave, c2Order, orderNumberTruthy, preSaveAssignNumber,
      preSaveSeedHistory, preSaveItems, preSaveSubTotal, preSaveTax,
      preSaveAmount, preSaveItemsCount, jsFalsy, jsOr, discAmount]
  refine ⟨hval, ?_⟩
  rw [hval]
  norm_num [c2Order, jsOr, discAmount]

/-- C2 amended: on first save without a truthy client-supplied amount the
hook stores exactly subtotal + tax + deliveryFee − discount, with no lower
clamp (the value may be negative); a truthy client-supplied amount is
stored verbatim. -/
theorem c2_total_equation_amended (o : Order) (now cnt : Nat)
    (hnum : orderNumberTruthy o = false) :
    (jsFalsy o.amount = true →
      (orderPreSave o now cnt).amount =
        some (jsOr (orderPreSave o now cnt).subTotal 0 +
          jsOr (orderPreSave o now cnt).tax 0 +
          jsOr (orderPreSave o now cnt).deliveryFee 0 -
          discAmount (orderPreSave o now cnt).discounts)) ∧
    (jsFalsy o.amount = false →
      (orderPreSave o now cnt).amount = o.amount) := by
  have hps : orderPreSave o now cnt =
      preSaveItemsCount (preSaveAmount (preSaveTax (preSaveSubTotal
        (preSaveItems (preSaveSeedHistory (preSaveAssignNumber o cnt) now))))) := by
    simp [orderPreSave, hnum]
  have hXam : (preSaveTax (preSaveSubTotal (preSaveItems
      (preSaveSeedHistory (preSaveAssignNumber o cnt) now)))).amount =
      o.amount := by
    rw [preSaveTax_amount, preSaveSubTotal_amount, preSaveItems_amount,
      preSaveSeedHistory_amount, preSaveAssignNumber_amount]
  constructor
  · intro hfal
    rw [hps, preSaveItemsCount_amount,
      preSaveAmount_set _ (by rw [hXam]; exact hfal),
      preSaveItemsCount_subTotal, preSaveAmount_subTotal,
      preSaveItemsCount_tax, preSaveAmount_tax,
      preSaveItemsCount_deliveryFee, preSaveAmount_deliveryFee,
      preSaveItemsCount_discounts, preSaveAmount_discounts]
  · intro hfal
    rw [hps, preSaveItemsCount_amount,
      preSaveAmount_keep _ (by rw [hXam]; exact hfal), hXam]

/-- Witness: the amended C2 equation evaluated on the discount-heavy
concrete order. -/
theorem c2_total_equation_witness :
    (orderPreSave c2Order 0 0).amount =
      some (jsOr (orderPreSave c2Order 0 0).subTotal 0 +
        jsOr (orderPreSave c2Order 0 0).tax 0 +
        jsOr (orderPreSave c2Order 0 0).deliveryFee 0 -
        discAmount (orderPreSave c2Order 0 0).discounts) :=
  (c2_total_equation_amended c2Order 0 0 rfl).1 rfl

/-! ## Claim C6: unit price and subtotal -/

theorem jsOr_some_zero (v : Rat) : jsOr (some v) 0 = v := by
  by_cases h : v = 0 <;> simp [jsOr, h]

theorem jsOr_falsy (x : Option Rat) (d : Rat) (h : jsFalsy x = true) :
    jsOr x d = d := by
  cases x
  · rfl
  · rename_i v
    have hv : v = 0 := by simpa [jsFalsy] using h
    simp [jsOr, hv]

theorem processItem_totalItemPrice (item : ItemIn) :
    (processItem item).totalItemPrice = some (processedItemTotal item) := rfl

theorem processItem_quantity (item : ItemIn) :
    (processItem item).quantity = item.quantity := rfl

/-- C6 is false on the code: a −50 add-on is subtracted from the 100 base
(unit price 50), while the claim (negative modifier price treated as 0)
demands 100; and a client-supplied subtotal of 999 is stored verbatim even
though the items sum to 100. -/
theorem c6_modifier_price_counterexample :
    processedItemTotal c6Item = 50 ∧
    specClaimUnitPrice 100 [some (-50)] = 100 ∧
    processedItemTotal c6Item ≠ specClaimUnitPrice 100 [some (-50)] ∧
    placeOrderSubTotal (some 999) [c6Item] = 999 ∧
    [c6Item].foldl
      (fun sum item => sum + processedItemTotal item * item.quantity) 0 = 100 ∧
    placeOrderSubTotal (some 999) [c6Item] ≠
      [c6Item].foldl
        (fun sum item => sum + processedItemTotal item * item.quantity) 0 := by
  have h1 : processedItemTotal c6Item = 50 := by
    norm_num [processedItemTotal, c6Item, jsOr, modifierFieldSum,
      toppingsFieldSum, modPrice]
  have h2 : specClaimUnitPrice 100 [some (-50)] = 100 := by
    norm_num [specClaimUnitPrice]
  have h4 : placeOrderSubTotal (some 999) [c6Item] = 999 := by
    norm_num [placeOrderSubTotal, jsOr]
  have h5 : [c6Item].foldl
      (fun sum item => sum + processedItemTotal item * item.quantity) 0 = 100 := by
    simp only [List.foldl_cons, List.foldl_nil, h1]
    norm_num [c6Item]
  refine ⟨h1, h2, ?_, h4, h5, ?_⟩
  · rw [h1, h2]
    norm_num
  · rw [h4, h5]
    norm_num

/-- C6 amended: an absent modifier price is treated as 0 but a non-zero
price — negative included — is added as-is to the base price; whenever the
request does not carry a truthy subtotal, the stored subtotal is the sum of
unit price times quantity over the items. -/
theorem c6_unit_price_amended (items : List ItemIn) (reqSubTotal : Option Rat)
    (m : ModifierIn) :
    (m.price = none → modPrice m = 0) ∧
    (∀ v : Rat, m.price = some v → v ≠ 0 → modPrice m = v) ∧
    (∀ item : ItemIn, (processItem item).totalItemPrice =
      some (jsOr item.basePrice item.price +
        modifierFieldSum item.customizations +
        modifierFieldSum item.addOns +
        toppingsFieldSum item.toppings)) ∧
    (jsFalsy reqSubTotal = true →
      placeOrderSubTotal reqSubTotal items =
        items.foldl
          (fun sum item => sum + processedItemTotal item * item.quantity) 0) := by
  refine ⟨?_, ?_, ?_, ?_⟩
  · intro h
    simp [modPrice, jsOr, h]
  · intro v h hv
    simp [modPrice, jsOr, h, hv]
  · intro item
    rfl
  · intro h
    unfold placeOrderSubTotal
    rw [jsOr_falsy _ _ h, List.foldl_map]
    simp only [processItem_totalItemPrice, processItem_quantity,
      jsOr_some_zero]

/-- Witness: the amended C6 theorem applied to the negative add-on item
(price −50 added as-is, absent price zeroed, subtotal recomputed when the
request carries none). -/
theorem c6_unit_price_witness :
    modPrice { price := none } = 0 ∧
    modPrice { price := some (-50) } = -50 ∧
    placeOrderSubTotal none [c6Item] =
      [c6Item].foldl
        (fun sum item => sum + processedItemTotal item * item.quantity) 0 := by
  have h := c6_unit_price_amended [c6Item] none { price := some (-50) }
  exact ⟨(c6_unit_price_amended [] none { price := none }).1 rfl,
    h.2.1 (-50) rfl (by norm_num), h.2.2.2 rfl⟩

/-! ## Claim C7: append-only history -/

theorem preSaveAssignNumber_statusUpdates (o : Order) (cnt : Nat) :
    (preSaveAssignNumber o cnt).statusUpdates = o.statusUpdates := rfl

theorem preSaveAssignNumber_status (o : Order) (cnt : Nat) :
    (preSaveAssignNumber o cnt).status = o.status := rfl

theorem preSaveItems_statusUpdates (o : Order) :
    (preSaveItems o).statusUpdates = o.statusUpdates := rfl

theorem preSaveSubTotal_statusUpdates (o : Order) :
    (preSaveSubTotal o).statusUpdates = o.statusUpdates := by
  unfold preSaveSubTotal
  split <;> rfl

theorem preSaveTax_statusUpdates (o : Order) :
    (preSaveTax o).statusUpdates = o.statusUpdates := by
  unfold preSaveTax
  split <;> rfl

theorem preSaveAmount_statusUpdates (o : Order) :
    (preSaveAmount o).statusUpdates = o.statusUpdates := by
  unfold preSaveAmount
  split <;> rfl

theorem preSaveItemsCount_statusUpdates (o : Order) :
    (preSaveItemsCount o).statusUpdates = o.statusUpdates := rfl

theorem preSaveSeedHistory_seed (o : Order) (now : Nat)
    (h : o.statusUpdates = []) :
    (preSaveSeedHistory o now).statusUpdates =
      [⟨o.status, now, "Order created"⟩] := by
  simp [preSaveSeedHistory, h]

theorem preSaveSeedHistory_keep (o : Order) (now : Nat)
    (h : o.statusUpdates ≠ []) :
    (preSaveSeedHistory o now).statusUpdates = o.statusUpdates := by
  simp [preSaveSeedHistory, h]

/-- Every successful `cancelMyOrder` call returns the order with status
Cancelled and one appended history entry. -/
theorem cancelMyOrder_ok (userId : Nat) (now : Nat) (o o2 : Order)
    (h : cancelMyOrder userId now (some o) = .ok o2) :
    o2 = { o with
      status := .Cancelled,
      statusUpdates := o.statusUpdates ++
        [⟨.Cancelled, now, "Cancelled by customer"⟩] } := by
  unfold cancelMyOrder at h
  (repeat' split at h) <;> simp_all

/-- C7 confirmed: a later save leaves the whole document unchanged, the
first save seeds exactly one "Order created" entry (or keeps a non-empty
history as is), each of the three mutating operations appends exactly one
entry stamped with the call time and never rewrites the prefix, and
appending an entry no older than every existing timestamp preserves the
non-decreasing order. -/
theorem c7_history_append_only (o : Order) (u : User) (status : OrderStatus)
    (note : Option String) (now cnt : Nat) (p : PaymentData) (ct : Bool) :
    (orderNumberTruthy o = true → orderPreSave o now cnt = o) ∧
    (orderNumberTruthy o = false → o.statusUpdates = [] →
      (orderPreSave o now cnt).statusUpdates =
        [⟨o.status, now, "Order created"⟩]) ∧
    (orderNumberTruthy o = false → o.statusUpdates ≠ [] →
      (orderPreSave o now cnt).statusUpdates = o.statusUpdates) ∧
    (∀ o2, updateOrderStatus u status note now (some o) = .ok o2 →
      ∃ e : StatusUpdate, o2.statusUpdates = o.statusUpdates ++ [e] ∧
        e.time = now) ∧
    (∀ o2, cancelMyOrder u.id now (some o) = .ok o2 →
      ∃ e : StatusUpdate, o2.statusUpdates = o.statusUpdates ++ [e] ∧
        e.time = now) ∧
    (∀ r, processOrderPayment (some o) p u ct now = .ok r →
      ∃ e : StatusUpdate, r.order.statusUpdates = o.statusUpdates ++ [e] ∧
        e.time = now) ∧
    (∀ (l : List StatusUpdate) (e : StatusUpdate), timesSorted l →
      (∀ x ∈ l, x.time ≤ e.time) → timesSorted (l ++ [e])) := by
  have hpipe : orderNumberTruthy o = false →
      (orderPreSave o now cnt).statusUpdates =
        (preSaveSeedHistory (preSaveAssignNumber o cnt) now).statusUpdates := by
    intro hnum
    simp only [orderPreSave, hnum, Bool.false_eq_true, if_false]
    rw [preSaveItemsCount_statusUpdates, preSaveAmount_statusUpdates,
      preSaveTax_statusUpdates, preSaveSubTotal_statusUpdates,
      preSaveItems_statusUpdates]
  refine ⟨?_, ?_, ?_, ?_, ?_, ?_, ?_⟩
  · intro hnum
    simp [orderPreSave, hnum]
  · intro hnum hemp
    rw [hpipe hnum, preSaveSeedHistory_seed _ _
      (by rw [preSaveAssignNumber_statusUpdates]; exact hemp),
      preSaveAssignNumber_status]
  · intro hnum hne
    rw [hpipe hnum, preSaveSeedHistory_keep _ _
      (by rw [preSaveAssignNumber_statusUpdates]; exact hne),
      preSaveAssignNumber_statusUpdates]
  · intro o2 h
    rw [updateOrderStatus_ok u status note now o o2 h,
      applyStatusChange_statusUpdates]
    exact ⟨_, rfl, rfl⟩
  · intro o2 h
    rw [cancelMyOrder_ok u.id now o o2 h]
    exact ⟨_, rfl, rfl⟩
  · intro r h
    rw [(processOrderPayment_ok o p u ct now r h).2, payMutate_statusUpdates]
    exact ⟨_, rfl, rfl⟩
  · intro l e hs hle
    unfold timesSorted at hs ⊢
    rw [List.pairwise_append]
    refine ⟨hs, List.pairwise_singleton _ _, ?_⟩
    intro a ha b hb
    rw [List.mem_singleton] at hb
    subst hb
    exact hle a ha

/-- Witness: C7 applied to the concrete Preparing order (seeded history on
first save) and to a concrete two-entry history extension. -/
theorem c7_history_append_only_witness :
    (orderPreSave c5Order 4 0).statusUpdates =
      [⟨c5Order.status, 4, "Order created"⟩] ∧
    timesSorted [⟨.Pending, 1, "created"⟩, ⟨.Preparing, 2, "later"⟩] := by
  have h := c7_history_append_only c5Order c5Cust .Cancelled none 4 0 {} false
  refine ⟨h.2.1 rfl rfl, ?_⟩
  have h2 := h.2.2.2.2.2.2 [⟨.Pending, 1, "created"⟩] ⟨.Preparing, 2, "later"⟩
  refine h2 ?_ ?_
  · exact List.pairwise_singleton _ _
  · intro x hx
    rw [List.mem_singleton] at hx
    subst hx
    decide

end PizzaBackend
